import Mathlib

set_option autoImplicit false
set_option maxRecDepth 2048

/-!
Verification development for the voice-driven accessibility front end
(`web/app.js`).  The file shallowly embeds the speech core of the source:

* the local intent parser `parseVoiceCommandLocal` (app.js 405-573),
* the text-to-speech controller `TTSManager.speak` (app.js 2417-2503) and
  the section readers / `stopReading` (app.js 2507-2638),
* the speech-recognition callbacks `onstart` / `onresult` / `onerror` /
  `onend` (app.js 291-399), `safeStartRecognition` (254-281) and
  `toggleVoiceRecording` (1894-1928),
* the voice-command dispatcher `processVoiceCommand` (575-755) and the
  player search flow `searchPlayerStats` (758-880),

together with a small-step event model of the surrounding browser
environment (speech engines, timers, user clicks), and proves or refutes
the specification's claims about them.

Strings are modelled as `List Char`; all string operations are written to
match JavaScript semantics (`includes` is substring containment,
`String.prototype.replace` with a string pattern replaces only the first
occurrence, `replace(/re/g, …)` replaces left-to-right all occurrences,
`split` is separator splitting, `trim` strips leading/trailing
whitespace, `toLowerCase` lowercases ASCII letters).
-/

/-- ASCII lower-casing of one character, as `String.prototype.toLowerCase`
acts on the ASCII letters that the voice commands consist of.  Characters
outside A-Z are returned unchanged. -/
def lowerChar (c : Char) : Char :=
  if c = 'A' then 'a' else if c = 'B' then 'b' else if c = 'C' then 'c'
  else if c = 'D' then 'd' else if c = 'E' then 'e' else if c = 'F' then 'f'
  else if c = 'G' then 'g' else if c = 'H' then 'h' else if c = 'I' then 'i'
  else if c = 'J' then 'j' else if c = 'K' then 'k' else if c = 'L' then 'l'
  else if c = 'M' then 'm' else if c = 'N' then 'n' else if c = 'O' then 'o'
  else if c = 'P' then 'p' else if c = 'Q' then 'q' else if c = 'R' then 'r'
  else if c = 'S' then 's' else if c = 'T' then 't' else if c = 'U' then 'u'
  else if c = 'V' then 'v' else if c = 'W' then 'w' else if c = 'X' then 'x'
  else if c = 'Y' then 'y' else if c = 'Z' then 'z' else c

/-- JavaScript `s.toLowerCase()` on a character list. -/
def jsLower (l : List Char) : List Char := l.map lowerChar

/-- JavaScript `s.trim()`: strip leading and trailing whitespace. -/
def jsTrim (l : List Char) : List Char :=
  ((l.dropWhile Char.isWhitespace).reverse.dropWhile Char.isWhitespace).reverse

/-- JavaScript `s.includes(pat)`: substring containment. -/
def jsIncludes (pat : List Char) : List Char → Bool
  | [] => pat.isEmpty
  | c :: rest => pat.isPrefixOf (c :: rest) || jsIncludes pat rest

/-- JavaScript `s.startsWith(pat)`. -/
def jsStartsWith (pat l : List Char) : Bool := pat.isPrefixOf l

/-- JavaScript `s.endsWith(pat)`. -/
def jsEndsWith (pat l : List Char) : Bool := pat.reverse.isPrefixOf l.reverse

/-- JavaScript `s.replace(pat, rep)` with a *string* pattern: replaces only
the first occurrence. -/
def jsReplaceFirst (pat rep : List Char) : List Char → List Char
  | [] => []
  | c :: rest =>
    if pat.isPrefixOf (c :: rest) then rep ++ (c :: rest).drop pat.length
    else c :: jsReplaceFirst pat rep rest

/-- Fuel-driven worker for global replacement (the fuel is an upper bound
on the number of characters still to be scanned, so it never runs out on
the initial call of `jsReplaceAll`). -/
def jsReplaceAllFuel (pat rep : List Char) : Nat → List Char → List Char
  | 0, l => l
  | _ + 1, [] => []
  | fuel + 1, c :: rest =>
    if !pat.isEmpty && pat.isPrefixOf (c :: rest) then
      rep ++ jsReplaceAllFuel pat rep fuel ((c :: rest).drop pat.length)
    else c :: jsReplaceAllFuel pat rep fuel rest

/-- JavaScript `s.replace(new RegExp(escapedLiteral, 'g'), rep)`: replace
every (left-to-right, non-overlapping) occurrence of the literal. -/
def jsReplaceAll (pat rep l : List Char) : List Char :=
  jsReplaceAllFuel pat rep l.length l

/-- JavaScript `s.replace(/stats?/g, '')`: delete every occurrence of
`stat` followed by an optional greedy `s`, scanning left to right. -/
def dropStatWords : List Char → List Char
  | 's' :: 't' :: 'a' :: 't' :: 's' :: rest => dropStatWords rest
  | 's' :: 't' :: 'a' :: 't' :: rest => dropStatWords rest
  | c :: rest => c :: dropStatWords rest
  | [] => []

/-- JavaScript `s.replace(/\s+/g, ' ')`: collapse every whitespace run to
one space. -/
def collapseWS : List Char → List Char
  | [] => []
  | [c] => if c.isWhitespace then [' '] else [c]
  | c :: d :: rest =>
    if c.isWhitespace && d.isWhitespace then collapseWS (d :: rest)
    else (if c.isWhitespace then ' ' else c) :: collapseWS (d :: rest)

/-- Fuel-driven worker for `jsSplitOn`. -/
def jsSplitOnFuel (sep : List Char) : Nat → List Char → List Char → List (List Char)
  | 0, l, acc => [acc.reverse ++ l]
  | _ + 1, [], acc => [acc.reverse]
  | fuel + 1, c :: rest, acc =>
    if !sep.isEmpty && sep.isPrefixOf (c :: rest) then
      acc.reverse :: jsSplitOnFuel sep fuel ((c :: rest).drop sep.length) []
    else jsSplitOnFuel sep fuel rest (c :: acc)

/-- JavaScript `s.split(sep)` for a non-empty string separator. -/
def jsSplitOn (sep l : List Char) : List (List Char) :=
  jsSplitOnFuel sep l.length l []

/-- ASCII upper-casing of one character (inverse direction of
`lowerChar`), as `String.prototype.toUpperCase`. -/
def upperChar (c : Char) : Char :=
  if c = 'a' then 'A' else if c = 'b' then 'B' else if c = 'c' then 'C'
  else if c = 'd' then 'D' else if c = 'e' then 'E' else if c = 'f' then 'F'
  else if c = 'g' then 'G' else if c = 'h' then 'H' else if c = 'i' then 'I'
  else if c = 'j' then 'J' else if c = 'k' then 'K' else if c = 'l' then 'L'
  else if c = 'm' then 'M' else if c = 'n' then 'N' else if c = 'o' then 'O'
  else if c = 'p' then 'P' else if c = 'q' then 'Q' else if c = 'r' then 'R'
  else if c = 's' then 'S' else if c = 't' then 'T' else if c = 'u' then 'U'
  else if c = 'v' then 'V' else if c = 'w' then 'W' else if c = 'x' then 'X'
  else if c = 'y' then 'Y' else if c = 'z' then 'Z' else c

/-- JavaScript `s.toUpperCase()` on a character list. -/
def jsUpper (l : List Char) : List Char := l.map upperChar

/-- Convenience: the character list of a string literal. -/
def lc (s : String) : List Char := s.toList

/-- The closed enumeration of parser actions (app.js 405-563 plus the
`club_info` alias accepted by the dispatcher at app.js 688). -/
inductive VAction where
  | search_player | compare_players | club_achievements | club_info
  | show_favorites
  | add_player_favorite | add_club_favorite
  | add_current_player_favorite | add_current_club_favorite
  | remove_player_favorite | remove_club_favorite
  | read_injuries | read_transfers | read_achievements | read_market_value
  | stop_speaking | resume_speaking
deriving DecidableEq, Repr

/-- The parser's output record; absent fields are `none` (JavaScript
`undefined`). -/
structure Intent where
  action : VAction
  playerName : Option (List Char) := none
  playerName2 : Option (List Char) := none
  clubName : Option (List Char) := none
deriving DecidableEq, Repr

/-- `extractNameFromCommand` (app.js 565-573): each stop word is replaced
globally by a space, in list order, then whitespace is collapsed and the
result trimmed. -/
def extractNameFromCommand (commandLower : List Char) (wordsToRemove : List (List Char)) : List Char :=
  jsTrim (collapseWS (wordsToRemove.foldl (fun name w => jsReplaceAll w [' '] name) commandLower))

/-- The stop rule of the parser (app.js 409-415). -/
def stopCond (c : List Char) : Bool :=
  c == lc "stop" || jsStartsWith (lc "stop ") c ||
  jsIncludes (lc "stop talking") c || jsIncludes (lc "stop reading") c ||
  jsIncludes (lc "be quiet") c || jsIncludes (lc "shut up") c ||
  jsIncludes (lc "quiet") c

/-- The inline stop-command check of `recognition.onresult`
(app.js 328-330); note it is a strict subset of `stopCond`: no
`startsWith "stop "` test and no bare `"quiet"` phrase. -/
def inlineStopCond (c : List Char) : Bool :=
  c == lc "stop" || jsIncludes (lc "stop talking") c ||
  jsIncludes (lc "stop reading") c || jsIncludes (lc "be quiet") c ||
  jsIncludes (lc "shut up") c

/-- The `forEach` prefix-stripping loops of the parser: each prefix is
tested once, in list order, against the current (already shortened)
string; on a hit the prefix is cut off and the rest trimmed. -/
def stripPrefixes (prefixes : List (List Char)) (s : List Char) : List Char :=
  prefixes.foldl (fun cur p => if jsStartsWith p cur then jsTrim (cur.drop p.length) else cur) s

/-- The `forEach` suffix-stripping loop of the stats rule (app.js
535-539). -/
def stripSuffixes (suffixes : List (List Char)) (s : List Char) : List Char :=
  suffixes.foldl (fun cur p => if jsEndsWith p cur then jsTrim (cur.take (cur.length - p.length)) else cur) s

/-- Club-indicative keywords (app.js 502-503). -/
def clubKeywords : List (List Char) :=
  [lc "club", lc "fc", lc "united", lc "city", lc "arsenal", lc "chelsea",
   lc "liverpool", lc "manchester", lc "barcelona", lc "real madrid",
   lc "psg", lc "bayern", lc "juventus"]

/-- `parseVoiceCommandLocal` (app.js 405-563), rule for rule and in the
source's first-match order.  The input is the raw utterance; the fallback
branch returns the *untrimmed, unlowered* original, exactly as line 562
does. -/
def parseVoiceCommandLocal (command : List Char) : Intent :=
  let cl := jsTrim (jsLower command)
  -- 1. stop (app.js 409-417)
  if stopCond cl then { action := .stop_speaking }
  -- 2. resume (418-420)
  else if jsIncludes (lc "resume talking") cl || jsIncludes (lc "start talking") cl ||
      jsIncludes (lc "start reading") cl then { action := .resume_speaking }
  -- 3. section reads (423-436); no-topic utterances fall through
  else if (jsIncludes (lc "tell me") cl || jsIncludes (lc "read") cl || jsIncludes (lc "show me") cl) &&
      (jsIncludes (lc "injuries") cl || jsIncludes (lc "injury") cl) then
    { action := .read_injuries }
  else if (jsIncludes (lc "tell me") cl || jsIncludes (lc "read") cl || jsIncludes (lc "show me") cl) &&
      (jsIncludes (lc "transfers") cl || jsIncludes (lc "transfer") cl) then
    { action := .read_transfers }
  else if (jsIncludes (lc "tell me") cl || jsIncludes (lc "read") cl || jsIncludes (lc "show me") cl) &&
      (jsIncludes (lc "achievements") cl || jsIncludes (lc "achievement") cl ||
       jsIncludes (lc "honors") cl || jsIncludes (lc "honours") cl) then
    { action := .read_achievements }
  else if (jsIncludes (lc "tell me") cl || jsIncludes (lc "read") cl || jsIncludes (lc "show me") cl) &&
      jsIncludes (lc "market value") cl then
    { action := .read_market_value }
  -- 4. favorites navigation (439-442)
  else if (jsIncludes (lc "show") cl || jsIncludes (lc "open") cl || jsIncludes (lc "go to") cl) &&
      (jsIncludes (lc "favorite") cl || jsIncludes (lc "favourite") cl) then
    { action := .show_favorites }
  -- 5. quick favorite (445-452)
  else if jsStartsWith (lc "favorite ") cl && !jsIncludes (lc "show favorite") cl then
    let isClub := jsIncludes (lc "club") cl || jsIncludes (lc "team") cl
    let name := extractNameFromCommand cl [lc "favorite", lc "club", lc "team", lc "player", lc "the"]
    let name := if name.isEmpty then cl else name
    if isClub then { action := .add_club_favorite, clubName := some name }
    else { action := .add_player_favorite, playerName := some name }
  -- 6. add favorites (455-468)
  else if jsIncludes (lc "add") cl && (jsIncludes (lc "favorite") cl || jsIncludes (lc "favourite") cl) then
    if jsIncludes (lc "this club") cl then { action := .add_current_club_favorite }
    else if jsIncludes (lc "this player") cl then { action := .add_current_player_favorite }
    else
      let isClub := jsIncludes (lc "club") cl || jsIncludes (lc "team") cl
      let name := extractNameFromCommand cl
        [lc "add", lc "to favorites", lc "favorites", lc "favorite", lc "favourite",
         lc "club", lc "team", lc "player", lc "the"]
      let name := if name.isEmpty then cl else name
      if isClub then { action := .add_club_favorite, clubName := some name }
      else { action := .add_player_favorite, playerName := some name }
  -- 7. remove favorites (471-484)
  else if jsIncludes (lc "remove") cl && (jsIncludes (lc "favorite") cl || jsIncludes (lc "favourite") cl) then
    if jsIncludes (lc "this club") cl then
      { action := .remove_club_favorite, clubName := some (lc "this") }
    else if jsIncludes (lc "this player") cl then
      { action := .remove_player_favorite, playerName := some (lc "this") }
    else
      let isClub := jsIncludes (lc "club") cl || jsIncludes (lc "team") cl
      let name := extractNameFromCommand cl
        [lc "remove", lc "from favorites", lc "favorites", lc "favorite", lc "favourite",
         lc "club", lc "team", lc "player", lc "the"]
      let name := if name.isEmpty then cl else name
      if isClub then { action := .remove_club_favorite, clubName := some name }
      else { action := .remove_player_favorite, playerName := some name }
  -- 8. compare (487-499); fewer than two " and "-parts fall through
  else if (jsIncludes (lc "compare") cl || jsIncludes (lc " vs ") cl || jsIncludes (lc " versus ") cl) &&
      ((jsSplitOn (lc " and ")
        (jsReplaceFirst (lc " vs ") [' '] (jsReplaceFirst (lc "versus") [' '] (jsReplaceFirst (lc "compare") [] cl)))).length ≥ 2) then
    let cleaned := jsReplaceFirst (lc " vs ") [' '] (jsReplaceFirst (lc "versus") [' '] (jsReplaceFirst (lc "compare") [] cl))
    let parts := jsSplitOn (lc " and ") cleaned
    let player1 := jsTrim (dropStatWords (jsTrim (parts.getD 0 [])))
    let player2 := jsTrim (dropStatWords (jsTrim (parts.getD 1 [])))
    { action := .compare_players, playerName := some player1, playerName2 := some player2 }
  -- 9. club lookup (502-516); an empty stripped name falls through
  else if (clubKeywords.any fun k => jsIncludes k cl) &&
      !jsIncludes (lc "stats") cl && !jsIncludes (lc "statistics") cl &&
      !(jsTrim (dropStatWords (stripPrefixes
          [lc "show", lc "display", lc "get", lc "find", lc "club", lc "info",
           lc "information", lc "achievements", lc "team"] cl))).isEmpty then
    let clubName := jsTrim (dropStatWords (stripPrefixes
      [lc "show", lc "display", lc "get", lc "find", lc "club", lc "info",
       lc "information", lc "achievements", lc "team"] cl))
    { action := .club_achievements, clubName := some clubName }
  -- 10. player stats (519-548); an empty player part falls through
  else if (jsIncludes (lc "stats") cl || jsIncludes (lc "statistics") cl || jsIncludes (lc "stat") cl) &&
      !(statsPlayerPart cl).isEmpty then
    { action := .search_player, playerName := some (statsPlayerPart cl),
      clubName := (statsClubPart cl).map jsUpper }
  -- 11. fallback (551-562)
  else
    let cleaned := stripPrefixes
      [lc "show me", lc "show", lc "find", lc "get", lc "search for", lc "display"] cl
    if !cleaned.isEmpty then { action := .search_player, playerName := some cleaned }
    else { action := .search_player, playerName := some command }
where
  /-- The player part of the stats rule (app.js 520-539): split off a
  `" for "` club part, strip known prefixes, then known suffixes. -/
  statsPlayerPart (cl : List Char) : List Char :=
    let playerPart := if jsIncludes (lc " for ") cl then (jsSplitOn (lc " for ") cl).getD 0 [] else cl
    let playerPart := stripPrefixes
      [lc "show me", lc "show", lc "find", lc "get", lc "search for",
       lc "stats for", lc "statistics for", lc "display"] playerPart
    stripSuffixes [lc " stats", lc " statistics", lc " stat"] playerPart
  /-- The club part of the stats rule (app.js 523-527). -/
  statsClubPart (cl : List Char) : Option (List Char) :=
    if jsIncludes (lc " for ") cl then some (jsTrim ((jsSplitOn (lc " for ") cl).getD 1 []))
    else none

/-!
## The speech-channel state model

The remaining definitions embed the stateful speech core: the global
mutable flags of app.js 5-18, the `TTSManager` object state, the browser
speech-recognition and speech-synthesis engines, and the scheduled
timers.  The browser is assumed to support `speechSynthesis` and
`SpeechRecognition` (otherwise the whole speech core is inert).  Each
callback/handler of the source becomes a function on this state; the
environment (engine callbacks, timer firings, user gestures, network
completions) is a small-step event relation `step`.

Abstractions, recorded here once: narration texts that the source builds
from fetched data are replaced by fixed placeholder strings (their content
is irrelevant to the claims); a cancelled synthesis utterance is modelled
as producing no further callbacks; the favorites store handlers (spec § 6
external collaborators) are modelled only through their speech-relevant
effects — their narration runs through the mute-guarded
`TTSManager.readSuccess` / `readError` and none of them touches
`ttsMuted`; `processVoiceCommand`'s remote-parser fetch is modelled as an
event parameter (`none` = transport failure, falling back to the local
parse) rather than an interleaving point.
-/

/-- The browser speech-recognition engine as the app can observe it. -/
inductive REngine where
  | off | starting | running | stopping
deriving DecidableEq, Repr

/-- Recognition error kinds distinguished by `recognition.onerror`
(app.js 339-381). -/
inductive RecErr where
  | aborted | notAllowed | serviceNotAllowed | noSpeech | audioCapture | other
deriving DecidableEq, Repr

/-- Which optional sections the last successful player lookup carried
(`searchResults.injuries` etc.): `none` = field falsy, `some b` = field
present with `b` = its item list non-empty. -/
structure Sections where
  injuries : Option Bool := none
  transfers : Option Bool := none
  achievements : Option Bool := none
  marketValue : Option Bool := none
deriving DecidableEq, Repr

/-- The global state: the flat mutable flags of app.js 5-18 and of
`TTSManager`, the two engines, and the pending timers. -/
structure GState where
  isRecording : Bool := false
  isRecognitionStarting : Bool := false
  isRecognitionStopping : Bool := false
  autoListening : Bool := false
  ttsMuted : Bool := false
  userInteracted : Bool := false
  isReadingAloud : Bool := false
  ttsActive : Bool := false          -- TTSManager.isActive
  currentSpeech : Bool := false      -- currentSpeech !== null
  searchResults : Option Sections := none
  searchActive : Bool := false       -- a searchPlayerStats fetch in flight
  compareActive : Bool := false      -- a comparePlayers fetch in flight
  clubActive : Bool := false         -- a showClubAchievements fetch in flight
  readPending : Bool := false        -- the 1500 ms read-results timer (app.js 857)
  compareReadPending : Bool := false -- the 500 ms read-comparison timer (app.js 1280)
  clubReadPending : Bool := false    -- the 500 ms read-club-info timer (app.js 1366)
  favReadPending : Bool := false     -- the 500 ms read-favorites timer (app.js 1583)
  recEngine : REngine := .off
  synthQueue : List (List Char) := []        -- utterances queued in speechSynthesis
  synthSpeaking : Option (List Char) := none -- the utterance being voiced
  speakPending : List (List Char × Bool) := [] -- scheduled TTSManager.speak timeouts
  restartLive : List Nat := []       -- ids of live restart timers
  restartVar : Option Nat := none    -- the variable restartTimeout
  nextId : Nat := 0                  -- fresh timer-id supply
deriving DecidableEq, Repr

/-- The initial page state (app.js 5-18: everything off). -/
def initG : GState := {}

/-- `speechSynthesis.cancel()`: flush the queue and silence the engine.
The cancelled utterance is modelled as firing no further callbacks. -/
def cancelSynth (s : GState) : GState :=
  { s with synthQueue := [], synthSpeaking := none }

/-- `stopReading` (app.js 2627-2638): cancel synthesis, clear the speech
bookkeeping, and set the durable mute flag. -/
def stopReading (s : GState) : GState :=
  let s1 := cancelSynth s
  { s1 with
    currentSpeech := false
    isReadingAloud := false
    ttsMuted := true
    ttsActive := false }

/-- The call phase of `TTSManager.speak(text, interrupt)` (app.js
2417-2441): the mute/empty-text early returns, the forced
`userInteracted`, the interrupt-mode `cancel`, and the scheduling of the
delayed start. -/
def speakCall (text : List Char) (interrupt : Bool) (s : GState) : GState :=
  if s.ttsMuted && !interrupt then s
  else if (jsTrim text).isEmpty then s
  else
    let s1 := { s with userInteracted := true }
    let s2 := if interrupt && s1.currentSpeech then cancelSynth s1 else s1
    { s2 with speakPending := s2.speakPending ++ [(text, interrupt)] }

/-- The delayed-start phase of `TTSManager.speak` (app.js 2441-2502): the
guarded re-check, then handing the utterance to the synthesis engine
(which queues it) and remembering it in `currentSpeech`. -/
def speakFire (text : List Char) (s : GState) : GState :=
  if s.ttsMuted || !s.userInteracted then s
  else { s with synthQueue := s.synthQueue ++ [text], currentSpeech := true }

/-- Placeholder for the player-stats narration text the source assembles
from the fetched payload (app.js 2047-2174). -/
def statsReportText : List Char := lc "Player Statistics Report."

/-- Placeholder for the injury-history narration text (app.js 2544-2557). -/
def injuriesReportText : List Char := lc "Injury History Report."

/-- Placeholder for the transfer-history narration text (app.js 2569-2582). -/
def transfersReportText : List Char := lc "Transfer History Report."

/-- Placeholder for the achievements narration text (app.js 2594-2602). -/
def achievementsReportText : List Char := lc "Achievements and Honors Report."

/-- Placeholder for the market-value narration text (app.js 2614-2622). -/
def marketValueReportText : List Char := lc "Market Value History Report."

/-- Placeholder for the comparison narration text (app.js 2293-2353). -/
def comparisonReportText : List Char := lc "Player Comparison Report."

/-- Placeholder for the club-information narration text (app.js 2188-2279). -/
def clubReportText : List Char := lc "Club Information Report."

/-- Placeholder for the favorites narration text (app.js 2365-2394). -/
def favoritesReportText : List Char := lc "Your Favorites List."

/-- `TTSManager.readPlayerStats` (app.js 2023-2038 head): searchResults
always carries a player here (it is only ever set by a successful
search), so the missing-player branch is unreachable; the mute guard and
the forced interaction flag precede the final `speak(text, true)`. -/
def readPlayerStats (s : GState) : GState :=
  if s.ttsMuted then s
  else speakCall statsReportText true { s with userInteracted := true }

/-- `readResultsAloud` (app.js 2508-2535): duplicate-call guard, missing
results remark, mute guard, forced interaction, then the comprehensive
report. -/
def readResultsAloud (s : GState) : GState :=
  if s.isReadingAloud || s.synthSpeaking.isSome || s.ttsActive then s
  else if s.searchResults.isNone then speakCall (lc "No results to read") false s
  else if s.ttsMuted then s
  else readPlayerStats { s with userInteracted := true }

/-- `readInjuriesAloud` (app.js 2537-2560); `itemsNonempty` is whether
`injuriesData.injuries` is a non-empty array. -/
def readInjuriesAloud (itemsNonempty : Bool) (s : GState) : GState :=
  if s.ttsMuted || !s.userInteracted then s
  else if !itemsNonempty then
    speakCall (lc "No injury history available for this player.") false s
  else speakCall injuriesReportText true s

/-- `readTransfersAloud` (app.js 2562-2585). -/
def readTransfersAloud (itemsNonempty : Bool) (s : GState) : GState :=
  if s.ttsMuted || !s.userInteracted then s
  else if !itemsNonempty then
    speakCall (lc "No transfer history available for this player.") false s
  else speakCall transfersReportText true s

/-- `readAchievementsAloud` (app.js 2587-2605). -/
def readAchievementsAloud (itemsNonempty : Bool) (s : GState) : GState :=
  if s.ttsMuted || !s.userInteracted then s
  else if !itemsNonempty then
    speakCall (lc "No achievements available for this player.") false s
  else speakCall achievementsReportText true s

/-- `readMarketValueAloud` (app.js 2607-2625). -/
def readMarketValueAloud (itemsNonempty : Bool) (s : GState) : GState :=
  if s.ttsMuted || !s.userInteracted then s
  else if !itemsNonempty then
    speakCall (lc "No market value history available for this player.") false s
  else speakCall marketValueReportText true s

/-- `TTSManager.readError` (app.js 2400-2404). -/
def readError (s : GState) : GState :=
  if s.ttsMuted then s
  else speakCall (lc "Error: request failed. Please try again.") false s

/-- `recognition.stop()`: ask an active engine to wind down (its `onend`
fires later); a no-op on an inactive engine. -/
def engineStop (s : GState) : GState :=
  if s.recEngine = .starting || s.recEngine = .running then
    { s with recEngine := .stopping }
  else s

/-- `safeStartRecognition` (app.js 254-281).  The boolean result is the
function's return value.  `recognition.start()` begins starting an
inactive engine and raises `InvalidStateError` on an active one; the
catch block converts that exception into success, marking the controller
Recording. -/
def safeStartRecognition (s : GState) : GState × Bool :=
  if s.isRecording || s.isRecognitionStarting || s.isRecognitionStopping then (s, false)
  else
    let s1 := { s with isRecognitionStarting := true }
    if s1.recEngine = .off then ({ s1 with recEngine := .starting }, true)
    else ({ s1 with isRecognitionStarting := false, isRecording := true }, true)

/-- Schedule the debounced restart (the common pattern of app.js 363-368,
391-397 and 2466-2471): clear the remembered timer if any, then remember
a fresh one. -/
def scheduleRestart (s : GState) : GState :=
  let live := match s.restartVar with
    | some id => s.restartLive.erase id
    | none => s.restartLive
  { s with
    restartLive := live ++ [s.nextId]
    restartVar := some s.nextId
    nextId := s.nextId + 1 }

/-- `recognition.onstart` (app.js 291-303). -/
def recognitionOnStart (s : GState) : GState :=
  { s with
    isRecording := true
    isRecognitionStarting := false
    isRecognitionStopping := false }

/-- `recognition.onend` (app.js 383-399): clear all three phase flags,
then schedule the debounced restart when auto-listening and not
narrating. -/
def recognitionOnEnd (s : GState) : GState :=
  let s1 := { s with
    isRecording := false
    isRecognitionStarting := false
    isRecognitionStopping := false }
  if s1.autoListening && !s1.isReadingAloud && !s1.isRecognitionStarting &&
      !s1.isRecognitionStopping then
    scheduleRestart s1
  else s1

/-- `recognition.onerror` (app.js 339-381), the per-error-kind handler.
Every branch clears `isRecording` and `isRecognitionStarting`; none
touches `isRecognitionStopping`. -/
def recognitionOnError (e : RecErr) (s : GState) : GState :=
  let s1 := { s with isRecording := false, isRecognitionStarting := false }
  match e with
  | .aborted => s1
  | .notAllowed =>
    let s2 := speakCall (lc "Microphone permission is required. Please allow access in your browser settings and refresh the page.") false s1
    { s2 with autoListening := false }
  | .serviceNotAllowed =>
    let s2 := speakCall (lc "Microphone permission is required. Please allow access in your browser settings and refresh the page.") false s1
    { s2 with autoListening := false }
  | .noSpeech =>
    if s1.autoListening && !s1.isReadingAloud && !s1.isRecognitionStarting &&
        !s1.isRecognitionStopping then
      scheduleRestart s1
    else s1
  | .audioCapture => { s1 with autoListening := false }
  | .other => s1

/-- `toggleVoiceRecording` (app.js 1894-1928).  `perm` is the outcome of
`requestMicrophonePermission`; `stopThrows` is whether the engine's stop
primitive throws (the try/catch at 1903-1912). -/
def toggleVoiceRecording (perm stopThrows : Bool) (s : GState) : GState :=
  if s.isRecording || s.isRecognitionStarting then
    let s1 := { s with autoListening := false, isRecognitionStopping := true }
    if stopThrows then
      { s1 with
        isRecording := false
        isRecognitionStarting := false
        isRecognitionStopping := false }
    else engineStop s1
  else
    if perm then
      let s1 := { s with autoListening := true }
      let res := safeStartRecognition s1
      if res.2 then res.1 else { res.1 with autoListening := false }
    else s

/-- Initiation of `searchPlayerStats` (app.js 758-763): interaction is
marked and the text-to-speech mute is lifted as soon as the lookup
*starts*, before its outcome is known. -/
def startSearch (s : GState) : GState :=
  { s with userInteracted := true, ttsMuted := false, searchActive := true }

/-- The set of actions always taken from the local parser (app.js
606-624). -/
def specialActions : List VAction :=
  [.stop_speaking, .resume_speaking, .read_injuries, .read_transfers,
   .read_achievements, .read_market_value, .add_player_favorite,
   .add_club_favorite, .add_current_player_favorite,
   .add_current_club_favorite, .remove_player_favorite,
   .remove_club_favorite, .show_favorites]

/-- JavaScript truthiness of an optional string field. -/
def truthy : Option (List Char) → Bool
  | some l => !l.isEmpty
  | none => false

/-- JavaScript truthiness of `field?.trim()`. -/
def truthyTrim : Option (List Char) → Bool
  | some l => !(jsTrim l).isEmpty
  | none => false

/-- `loadFavorites` (app.js 1573-1592): the favorites narration is only
scheduled behind the interaction/mute gate. -/
def loadFavorites (s : GState) : GState :=
  if s.userInteracted && !s.ttsMuted then { s with favReadPending := true } else s

/-- The `switch (action)` dispatcher of `processVoiceCommand` (app.js
630-747), restricted to the speech-relevant effects.  Favorites
add/remove handlers are § 6 external collaborators whose narration is
mute-guarded (`TTSManager.readSuccess` / `readError`) and which never
touch the modelled speech state, so they appear as identity. -/
def dispatch (intent : Intent) (s : GState) : GState :=
  match intent.action with
  | .stop_speaking => stopReading { s with ttsMuted := true }
  | .resume_speaking =>
    let s1 := { s with ttsMuted := false }
    if s1.searchResults.isSome then readResultsAloud s1 else s1
  | .read_injuries =>
    match s.searchResults with
    | some secs =>
      match secs.injuries with
      | some ne => readInjuriesAloud ne s
      | none => speakCall (lc "No injuries data available. Please search for a player first.") false s
    | none => speakCall (lc "No injuries data available. Please search for a player first.") false s
  | .read_transfers =>
    match s.searchResults with
    | some secs =>
      match secs.transfers with
      | some ne => readTransfersAloud ne s
      | none => speakCall (lc "No transfers data available. Please search for a player first.") false s
    | none => speakCall (lc "No transfers data available. Please search for a player first.") false s
  | .read_achievements =>
    match s.searchResults with
    | some secs =>
      match secs.achievements with
      | some ne => readAchievementsAloud ne s
      | none => speakCall (lc "No achievements data available. Please search for a player first.") false s
    | none => speakCall (lc "No achievements data available. Please search for a player first.") false s
  | .read_market_value =>
    match s.searchResults with
    | some secs =>
      match secs.marketValue with
      | some ne => readMarketValueAloud ne s
      | none => speakCall (lc "No market value data available. Please search for a player first.") false s
    | none => speakCall (lc "No market value data available. Please search for a player first.") false s
  | .search_player =>
    if truthyTrim intent.playerName then startSearch s else s
  | .compare_players =>
    if truthy intent.playerName && truthy intent.playerName2 then
      { s with compareActive := true }
    else s
  | .club_achievements =>
    if truthyTrim intent.clubName then { s with clubActive := true } else s
  | .club_info =>
    if truthyTrim intent.clubName then { s with clubActive := true } else s
  | .show_favorites => loadFavorites s
  | .add_player_favorite => s
  | .add_club_favorite => s
  | .add_current_player_favorite => s
  | .add_current_club_favorite => s
  | .remove_player_favorite => s
  | .remove_club_favorite => s

/-- The intent `processVoiceCommand` ends up dispatching (app.js
585-626): the remote parse when it arrived and the locally parsed action
is not in the always-local set, the local parse otherwise. -/
def resultIntent (t : List Char) (remote : Option Intent) : Intent :=
  let localIntent := parseVoiceCommandLocal (jsTrim t)
  if specialActions.contains localIntent.action then localIntent
  else remote.getD localIntent

/-- `recognition.onresult` for a final, non-empty transcript followed
synchronously by `processVoiceCommand` (app.js 305-337 and 575-755).
`remote` is the remote parser's response (`none`: transport failure or
non-OK status, falling back to the local parse). -/
def onResult (t : List Char) (remote : Option Intent) (s : GState) : GState :=
  let s1 := { s with userInteracted := true }
  let tr := jsTrim t
  let cmdLower := jsLower tr
  let s2 := if s1.isReadingAloud then stopReading s1 else s1
  if inlineStopCond cmdLower then stopReading s2
  else
    let s3 := if s2.isReadingAloud then stopReading s2 else s2
    dispatch (resultIntent t remote) s3

/-- Environment and user events driving the system.  Parameters carry the
environment's choices (permission outcomes, fetch outcomes, transcripts,
timer identities). -/
inductive Ev where
  | toggleClick (perm stopThrows : Bool)   -- the microphone button (app.js 1894)
  | stopBtnClick                           -- the stop button (app.js 1890)
  | recOnStart                             -- engine delivered onstart
  | recOnEnd                               -- engine delivered onend
  | recOnError (e : RecErr)                -- engine delivered onerror
  | recResult (t : List Char) (remote : Option Intent) -- final transcript
  | formSearch (name : List Char)          -- search form submit (app.js 1876-1887)
  | searchOk (secs : Sections)             -- searchPlayerStats success (app.js 839-864)
  | searchFail                             -- searchPlayerStats failure (app.js 786-789, 866-877)
  | compareOk                              -- comparePlayers success (app.js 1235-1236, 1280-1282)
  | compareFail                            -- comparePlayers failure (app.js 1237-1239)
  | clubOk                                 -- showClubAchievements success (app.js 1362-1368)
  | clubFail                               -- showClubAchievements failure (app.js 1369-1371)
  | readTimerFire                          -- the 1500 ms timer of app.js 857
  | compareReadFire (complete : Bool)      -- the 500 ms timer of app.js 1280
  | clubReadFire (hasData : Bool)          -- the 500 ms timer of app.js 1366
  | favReadFire (emptyFavs : Bool)         -- the 500 ms timer of app.js 1583
  | speakFireEv                            -- a pending TTSManager.speak timeout
  | synthOnStart                           -- utterance onstart (app.js 2450-2455)
  | synthOnEnd                             -- utterance onend (app.js 2457-2473)
  | synthOnError (notAllowed : Bool)       -- utterance onerror (app.js 2475-2488)
  | restartFire (id : Nat)                 -- a restart debounce timer fires
deriving DecidableEq, Repr

/-- One environment step.  Events whose preconditions do not hold (an
`onstart` from an engine that was never started, a fire of a dead timer,
…) leave the state unchanged. -/
def step (s : GState) : Ev → GState
  | .toggleClick perm stopThrows => toggleVoiceRecording perm stopThrows s
  | .stopBtnClick => stopReading s
  | .recOnStart =>
    if s.recEngine = .starting then recognitionOnStart { s with recEngine := .running }
    else s
  | .recOnEnd =>
    if s.recEngine = .off then s
    else recognitionOnEnd { s with recEngine := .off }
  | .recOnError e =>
    if s.recEngine = .off then s else recognitionOnError e s
  | .recResult t remote =>
    if s.recEngine = .running && !(jsTrim t).isEmpty then onResult t remote s
    else s
  | .formSearch name =>
    let s1 := { s with userInteracted := true }
    if !(jsTrim name).isEmpty then startSearch s1 else s1
  | .searchOk secs =>
    if s.searchActive then
      { s with
        searchActive := false
        ttsMuted := false
        searchResults := some secs
        readPending := true }
    else s
  | .searchFail =>
    if s.searchActive then readError { s with searchActive := false } else s
  | .compareOk =>
    if s.compareActive then
      { s with compareActive := false, ttsMuted := false, compareReadPending := true }
    else s
  | .compareFail =>
    if s.compareActive then { s with compareActive := false } else s
  | .clubOk =>
    if s.clubActive then
      { s with clubActive := false, ttsMuted := false, clubReadPending := true }
    else s
  | .clubFail =>
    if s.clubActive then { s with clubActive := false } else s
  | .readTimerFire =>
    if s.readPending then
      let s1 := { s with readPending := false }
      if !s1.isReadingAloud && !s1.ttsMuted then readResultsAloud s1 else s1
    else s
  | .compareReadFire complete =>
    if s.compareReadPending then
      let s1 := { s with compareReadPending := false }
      if s1.ttsMuted || !s1.userInteracted then s1
      else if !complete then speakCall (lc "Comparison data is incomplete.") false s1
      else speakCall comparisonReportText true s1
    else s
  | .clubReadFire hasData =>
    if s.clubReadPending then
      let s1 := { s with clubReadPending := false }
      if s1.ttsMuted || !s1.userInteracted then s1
      else if !hasData then speakCall (lc "No club data available to read.") false s1
      else speakCall clubReportText true s1
    else s
  | .favReadFire emptyFavs =>
    if s.favReadPending then
      let s1 := { s with favReadPending := false }
      if s1.ttsMuted || !s1.userInteracted then s1
      else if emptyFavs then speakCall (lc "You have no favorites saved yet.") false s1
      else speakCall favoritesReportText true s1
    else s
  | .speakFireEv =>
    match s.speakPending with
    | [] => s
    | (text, _) :: rest => speakFire text { s with speakPending := rest }
  | .synthOnStart =>
    match s.synthSpeaking, s.synthQueue with
    | none, text :: rest =>
      { s with
        synthSpeaking := some text
        synthQueue := rest
        ttsActive := true
        isReadingAloud := true }
    | _, _ => s
  | .synthOnEnd =>
    match s.synthSpeaking with
    | some _ =>
      let s1 := { s with
        synthSpeaking := none
        ttsActive := false
        isReadingAloud := false
        currentSpeech := false }
      if s1.autoListening && !s1.isRecording && !s1.isRecognitionStarting &&
          !s1.isRecognitionStopping then
        scheduleRestart s1
      else s1
    | none => s
  | .synthOnError notAllowed =>
    match s.synthSpeaking with
    | some _ =>
      let s1 := { s with
        synthSpeaking := none
        ttsActive := false
        isReadingAloud := false
        currentSpeech := false }
      if notAllowed then { s1 with userInteracted := false } else s1
    | none => s
  | .restartFire id =>
    if s.restartLive.contains id then
      let s1 := { s with restartLive := s.restartLive.erase id }
      if s1.autoListening && !s1.isReadingAloud && !s1.isRecording &&
          !s1.isRecognitionStarting && !s1.isRecognitionStopping then
        (safeStartRecognition s1).1
      else s1
    else s

/-- Run a trace of events from a state. -/
def run (s : GState) (tr : List Ev) : GState := tr.foldl step s

/-- A state in the middle of the output controller's Speaking phase with
an error arriving while the input controller is in its Stopping phase
(the user pressed the microphone button while listening, then the engine
reported `aborted`). -/
def stoppingState : GState :=
  { initG with isRecording := true, isRecognitionStopping := true }

/-- The C1 counterexample trace: grant the microphone and start
listening, submit a search from the form, let it succeed, let the 1500 ms
read-results timer and the speak timeout fire, and let the synthesis
engine start voicing the report.  Recognition is `continuous` and nothing
in the source stops it before narrating. -/
def listenSpeakTrace : List Ev :=
  [.toggleClick true false, .recOnStart, .formSearch (lc "messi"),
   .searchOk {}, .readTimerFire, .speakFireEv, .synthOnStart]

/-- The C6/C4 narration text `TTSManager.readError` schedules. -/
def errorReportText : List Char := lc "Error: request failed. Please try again."

/-- The C6 counterexample trace: a successful form search is being read
aloud; the user submits a second search from the form, it fails, and the
error remark is spoken with `interrupt = false` while the report is still
in flight. -/
def nonInterruptWhileSpeakingTrace : List Ev :=
  [.formSearch (lc "messi"), .searchOk {}, .readTimerFire, .speakFireEv,
   .synthOnStart, .formSearch (lc "xavi"), .searchFail, .speakFireEv]

/-- A concrete unmuted Speaking-phase state: the stats report is in
flight, the interaction gate is satisfied. -/
def speakingState : GState :=
  { initG with
    userInteracted := true
    isReadingAloud := true
    ttsActive := true
    currentSpeech := true
    synthSpeaking := some statsReportText }

/-- A concrete narrating-while-listening state with one live restart
timer, for exercising the restart-suppression lemma. -/
def readingListeningState : GState :=
  { initG with
    isRecording := true
    autoListening := true
    userInteracted := true
    isReadingAloud := true
    ttsActive := true
    recEngine := .running
    restartLive := [0]
    restartVar := some 0
    nextId := 1 }

/-- The C4 counterexample trace: the user is listening, says `"quiet"`
(dispatched as `stop_speaking`, muting the channel), then says
`"find messi"`; the lookup is initiated — which *unmutes at initiation*
(app.js 762) — and fails, and `TTSManager.readError` narrates the error
because the mute set by `stop_speaking` has already been lifted. -/
def muteLiftedByFailedLookupTrace : List Ev :=
  [.toggleClick true false, .recOnStart, .recResult (lc "quiet") none,
   .recResult (lc "find messi") none, .searchFail, .speakFireEv, .synthOnStart]

/-- The restart-debounce invariant: at most one restart timer is live,
and if one is live it is exactly the timer remembered in
`restartTimeout`. -/
def restartInv (s : GState) : Prop :=
  s.restartLive = [] ∨ ∃ id, s.restartLive = [id] ∧ s.restartVar = some id

/-- A concrete narrating state with full section data, for the barge-in
witness. -/
def bargeInState : GState :=
  { initG with
    isRecording := true
    autoListening := true
    userInteracted := true
    isReadingAloud := true
    ttsActive := true
    currentSpeech := true
    recEngine := .running
    searchResults := some
      { injuries := some true, transfers := some true,
        achievements := some true, marketValue := some true }
    synthSpeaking := some statsReportText }

/-- The events that can lift the mute set by `stop_speaking`: a voice
command that dispatches `resume_speaking` or initiates a player search, a
search-form submission, or a lookup reaching its unmute point
(`searchPlayerStats` line 839, `comparePlayers` line 1235,
`showClubAchievements` line 1362). -/
def unmuteEvent (s : GState) : Ev → Bool
  | .formSearch name => !(jsTrim name).isEmpty
  | .searchOk _ => s.searchActive
  | .compareOk => s.compareActive
  | .clubOk => s.clubActive
  | .recResult t remote =>
    decide (s.recEngine = .running) && !(jsTrim t).isEmpty &&
    !inlineStopCond (jsLower (jsTrim t)) &&
    ((resultIntent t remote).action == .resume_speaking ||
      ((resultIntent t remote).action == .search_player &&
        truthyTrim (resultIntent t remote).playerName))
  | _ => false

/-- A muted state with the recognition engine running, for the mute
persistence witness. -/
def mutedState : GState :=
  { initG with ttsMuted := true, userInteracted := true, recEngine := .running }

/-!
## Claim theorems

Each claim of the specification gets one theorem (plus, where the claim
fails on the code, a closed counterexample at a concrete input).
-/

/-- C1, counterexample.  The state reached by `listenSpeakTrace` has the
input controller Listening (`isRecording`, engine `running`) and the
output controller Speaking (`isReadingAloud`, `TTSManager.isActive`)
*simultaneously*: the coordinator never pauses an already-running
recognition session before narrating, so the claimed mutual exclusion
fails on a reachable trace. -/
theorem listening_and_speaking_reachable :
    (run initG listenSpeakTrace).isRecording = true ∧
    (run initG listenSpeakTrace).isReadingAloud = true ∧
    (run initG listenSpeakTrace).recEngine = .running ∧
    (run initG listenSpeakTrace).ttsActive = true := by
  decide

/-- C2, counterexample.  `"please stop"` contains `stop` as a whole word,
but the stop rule only tests equality, the `"stop "` prefix and the five
phrases, so the parser falls through to the default rule and returns a
player search instead of `stop_speaking`. -/
theorem parse_please_stop_not_stop :
    parseVoiceCommandLocal (lc "please stop") =
      { action := .search_player, playerName := some (lc "please stop") } ∧
    parseVoiceCommandLocal (lc "please stop") ≠ { action := .stop_speaking } := by
  decide

/-- C5, counterexample.  On `"show Barcelona achievements"` the club rule
strips only the *leading* prefix `"show"` (each list entry is tested once
against the start of the string), so the trailing word `"achievements"`
survives and `clubName` is not `"barcelona"`. -/
theorem parse_club_name_keeps_achievements :
    (parseVoiceCommandLocal (lc "show Barcelona achievements")).clubName ≠
      some (lc "barcelona") := by
  decide

/-- C5, amended.  `parse("show Barcelona achievements")` returns action
`club_achievements`, but with `clubName = "barcelona achievements"`: the
prefix-stopword loop removes only words found at the *start* of the
remaining string (each once, in list order), and `"achievements"` is not
leading once `"show"` is cut, so it is kept. -/
theorem parse_show_barcelona_achievements :
    parseVoiceCommandLocal (lc "show Barcelona achievements") =
      { action := .club_achievements, clubName := some (lc "barcelona achievements") } := by
  decide

/-- C8, counterexample.  An `aborted` recognition error delivered while
the input controller is Stopping: the `onerror` handler clears
`isRecording` and `isRecognitionStarting` but never touches
`isRecognitionStopping`, so the controller is left in Stopping, not Idle,
when the handler returns. -/
theorem onerror_leaves_stopping_set :
    (recognitionOnError .aborted stoppingState).isRecognitionStopping = true := by
  decide

/-- C8, amended.  For every error kind, `recognition.onerror` resets
`isRecording` and `isRecognitionStarting` to false, but it leaves
`isRecognitionStopping` exactly as it was: the Stopping indicator is only
cleared by the `onstart`/`onend` callbacks, so an error arriving during
Stopping does not by itself restore Idle. -/
theorem onerror_clears_recording_not_stopping (e : RecErr) (s : GState) :
    (recognitionOnError e s).isRecording = false ∧
    (recognitionOnError e s).isRecognitionStarting = false ∧
    (recognitionOnError e s).isRecognitionStopping = s.isRecognitionStopping := by
  cases e <;>
    simp [recognitionOnError, speakCall, cancelSynth, scheduleRestart] <;>
    split <;> simp_all <;> split <;> simp_all

/-- C9, counterexample.  `toggleVoiceRecording` invoked on the Idle
initial state (microphone permission granted): it takes the start branch
and *starts* recognition — `isRecognitionStarting` is raised and the
engine moves to `starting` — rather than being a no-op.  A second `stop`
press after the controller has returned to Idle therefore restarts
recognition instead of doing nothing. -/
theorem toggle_on_idle_starts_recognition :
    (toggleVoiceRecording true false initG).isRecognitionStarting = true ∧
    (toggleVoiceRecording true false initG).recEngine = .starting ∧
    (toggleVoiceRecording true false initG).autoListening = true := by
  decide

/-- C9, amended.  The stop branch of `toggleVoiceRecording` (taken
whenever the controller is Recording or Starting) never lets a stop
exception escape — the catch block resets all three phase flags — always
forces `autoListening` off, and on the normal path leaves the controller
in Stopping (Idle is only restored by the engine's `onend`).  When the
controller is already Idle, the toggle instead *starts* recognition: the
spec's `stop()`-idempotence reading does not hold of this toggle. -/
theorem toggle_stop_branch_behaviour (s : GState) (perm stopThrows : Bool) :
    (s.isRecording = true ∨ s.isRecognitionStarting = true →
      (toggleVoiceRecording perm stopThrows s).autoListening = false ∧
      (stopThrows = true →
        (toggleVoiceRecording perm stopThrows s).isRecording = false ∧
        (toggleVoiceRecording perm stopThrows s).isRecognitionStarting = false ∧
        (toggleVoiceRecording perm stopThrows s).isRecognitionStopping = false) ∧
      (stopThrows = false →
        (toggleVoiceRecording perm stopThrows s).isRecognitionStopping = true)) ∧
    (s.isRecording = false → s.isRecognitionStarting = false →
      s.isRecognitionStopping = false → s.recEngine = .off → perm = true →
      (toggleVoiceRecording perm stopThrows s).isRecognitionStarting = true ∧
      (toggleVoiceRecording perm stopThrows s).recEngine = .starting) := by
  constructor
  · intro hbusy
    have hb : (s.isRecording || s.isRecognitionStarting) = true := by
      rcases hbusy with h | h <;> simp [h]
    refine ⟨?_, ?_, ?_⟩
    · simp only [toggleVoiceRecording, hb, if_true]
      split
      · rfl
      · simp only [engineStop]
        split <;> rfl
    · intro hst
      simp [toggleVoiceRecording, hb, hst]
    · intro hst
      simp only [toggleVoiceRecording, hb, if_true, hst]
      simp only [Bool.false_eq_true, if_false, engineStop]
      split <;> rfl
  · intro h1 h2 h3 h4 h5
    simp [toggleVoiceRecording, h1, h2, h5, safeStartRecognition, h3, h4]

/-- C9, amended: witness at a Listening state (`stopThrows = false`) for
the stop branch and at the Idle initial state for the start branch. -/
theorem toggle_stop_branch_behaviour_witness :
    ((toggleVoiceRecording true false { initG with isRecording := true }).autoListening = false ∧
      (toggleVoiceRecording true false { initG with isRecording := true }).isRecognitionStopping = true) ∧
    (toggleVoiceRecording true false initG).isRecognitionStarting = true := by
  refine ⟨⟨?_, ?_⟩, ?_⟩
  · exact ((toggle_stop_branch_behaviour { initG with isRecording := true } true false).1
      (Or.inl rfl)).1
  · exact (((toggle_stop_branch_behaviour { initG with isRecording := true } true false).1
      (Or.inl rfl)).2.2) rfl
  · exact ((toggle_stop_branch_behaviour initG true false).2 rfl rfl rfl rfl rfl).1

/-- C6, counterexample.  A `speak(text, interrupt = false)` call made
while the output controller is Speaking and unmuted is *not* dropped:
`TTSManager.speak` only drops non-interrupt calls when `ttsMuted` is
true, so the error remark is handed to the synthesis engine and queued
behind the in-flight report (which keeps playing). -/
theorem non_interrupt_call_not_dropped :
    (run initG nonInterruptWhileSpeakingTrace).synthSpeaking = some statsReportText ∧
    (run initG nonInterruptWhileSpeakingTrace).synthQueue = [errorReportText] ∧
    (run initG nonInterruptWhileSpeakingTrace).isReadingAloud = true := by
  decide

/-- C6, amended.  A non-interrupt `speak` call never cancels or perturbs
the in-flight utterance or the engine queue at call time; it is dropped
exactly when `ttsMuted` is true at call time (or the text is blank) —
otherwise it is scheduled, and when the delayed start finds the channel
unmuted with the interaction gate satisfied the new utterance is appended
to the synthesis engine's queue behind whatever is in flight, not
discarded. -/
theorem non_interrupt_speak_behaviour (s f : GState) (text : List Char) :
    ((speakCall text false s).synthSpeaking = s.synthSpeaking ∧
      (speakCall text false s).synthQueue = s.synthQueue) ∧
    (s.ttsMuted = true → speakCall text false s = s) ∧
    (s.ttsMuted = false → (jsTrim text).isEmpty = false →
      (speakCall text false s).speakPending = s.speakPending ++ [(text, false)]) ∧
    (f.ttsMuted = false → f.userInteracted = true →
      (speakFire text f).synthQueue = f.synthQueue ++ [text]) := by
  refine ⟨⟨?_, ?_⟩, ?_, ?_, ?_⟩
  · simp only [speakCall]
    split
    · rfl
    · split <;> simp
  · simp only [speakCall]
    split
    · rfl
    · split <;> simp
  · intro hm
    simp [speakCall, hm]
  · intro hm he
    simp [speakCall, hm, he]
  · intro hm hu
    simp [speakFire, hm, hu]

/-- C6, amended: witness.  With an unmuted Speaking-phase state, the
scheduled error remark survives the call and the fire appends it behind
the in-flight utterance. -/
theorem non_interrupt_speak_behaviour_witness :
    (speakCall errorReportText false speakingState).speakPending =
      speakingState.speakPending ++ [(errorReportText, false)] ∧
    (speakFire errorReportText speakingState).synthQueue =
      speakingState.synthQueue ++ [errorReportText] := by
  exact ⟨(non_interrupt_speak_behaviour speakingState speakingState errorReportText).2.2.1
      rfl (by decide),
    (non_interrupt_speak_behaviour speakingState speakingState errorReportText).2.2.2
      rfl rfl⟩

/-- C3.  The mute gate of `TTSManager.speak`: a non-interrupt call made
while muted returns before scheduling anything (the utterance is not
queued for later replay), and the guarded re-check at the head of the
delayed start abandons the call whenever `ttsMuted` is true at the moment
the utterance would start — for interrupt and non-interrupt calls alike,
nothing is handed to the synthesis engine. -/
theorem muted_speak_is_noop (s f : GState) (text : List Char) (interrupt : Bool) :
    (s.ttsMuted = true → interrupt = false → speakCall text interrupt s = s) ∧
    (f.ttsMuted = true → speakFire text f = f) := by
  constructor
  · intro hm hi
    simp [speakCall, hm, hi]
  · intro hm
    simp [speakFire, hm]

/-- C3: witness.  A muted state drops the non-interrupt call at call time
and abandons the delayed start of any call at fire time. -/
theorem muted_speak_is_noop_witness :
    speakCall statsReportText false { initG with ttsMuted := true } =
      { initG with ttsMuted := true } ∧
    speakFire statsReportText { initG with ttsMuted := true } =
      { initG with ttsMuted := true } := by
  exact ⟨(muted_speak_is_noop { initG with ttsMuted := true }
      { initG with ttsMuted := true } statsReportText false).1 rfl rfl,
    (muted_speak_is_noop { initG with ttsMuted := true }
      { initG with ttsMuted := true } statsReportText false).2 rfl⟩

/-- C1, amended.  What the source does enforce is one-sided: while the
output controller is narrating (`isReadingAloud`), no auto-restart of the
input controller can take effect — a firing restart timer leaves the
engine and the Starting/Recording flags unchanged, and neither `onend`
nor a `no-speech` error schedules a new restart timer.  An
already-running recognition session, however, is never paused when
narration starts, so the two-sided mutual exclusion fails
(`listening_and_speaking_reachable`). -/
theorem no_restart_while_reading (s : GState) (id : Nat) :
    s.isReadingAloud = true →
    ((step s (.restartFire id)).recEngine = s.recEngine ∧
      (step s (.restartFire id)).isRecording = s.isRecording ∧
      (step s (.restartFire id)).isRecognitionStarting = s.isRecognitionStarting) ∧
    ((step s .recOnEnd).restartLive = s.restartLive ∧
      (step s .recOnEnd).restartVar = s.restartVar) ∧
    ((step s (.recOnError .noSpeech)).restartLive = s.restartLive ∧
      (step s (.recOnError .noSpeech)).restartVar = s.restartVar) := by
  intro hr
  refine ⟨?_, ?_, ?_⟩
  · simp only [step]
    split
    · simp [hr]
    · simp
  · simp only [step]
    split
    · simp
    · simp [recognitionOnEnd, hr]
  · simp only [step]
    split
    · simp
    · simp [recognitionOnError, hr]

/-- C1, amended: witness at a concrete narrating state with one live
restart timer and a running engine. -/
theorem no_restart_while_reading_witness :
    (step readingListeningState (.restartFire 0)).recEngine =
      readingListeningState.recEngine ∧
    (step readingListeningState .recOnEnd).restartLive =
      readingListeningState.restartLive := by
  exact ⟨((no_restart_while_reading readingListeningState 0) rfl).1.1,
    ((no_restart_while_reading readingListeningState 0) rfl).2.1.1⟩

/-- The stop rule is the first test of `parseVoiceCommandLocal`: whenever
it holds of the normalized utterance the parser returns immediately. -/
lemma parse_of_stopCond (t : List Char) (h : stopCond (jsTrim (jsLower t)) = true) :
    parseVoiceCommandLocal t = { action := .stop_speaking } := by
  unfold parseVoiceCommandLocal
  simp [h]

/-- C2, amended.  For every utterance whose lowercased, trimmed form is
exactly `"stop"`, starts with `"stop "`, or contains one of
`"stop talking"`, `"stop reading"`, `"be quiet"`, `"shut up"`,
`"quiet"`, the parser returns `stop_speaking` before any other rule can
fire.  (The original claim's `contains "stop" as a whole word` reading
fails: see `parse_please_stop_not_stop`.) -/
theorem stop_rule_has_priority (t : List Char)
    (h : stopCond (jsTrim (jsLower t)) = true) :
    parseVoiceCommandLocal t = { action := .stop_speaking } :=
  parse_of_stopCond t h

/-- C2, amended: witness on an utterance that contains other content
around the stop phrase. -/
theorem stop_rule_has_priority_witness :
    stopCond (jsTrim (jsLower (lc "please STOP talking and find Messi"))) = true ∧
    parseVoiceCommandLocal (lc "please STOP talking and find Messi") =
      { action := .stop_speaking } := by
  exact ⟨by decide,
    stop_rule_has_priority (lc "please STOP talking and find Messi") (by decide)⟩

/-- C4, counterexample.  After the `stop_speaking` dispatch the channel
is muted, no `resume_speaking` is ever dispatched and no lookup
succeeds — yet the failing lookup produces narration: the error report is
being voiced at the end of the trace.  `ttsMuted` is reset when a lookup
is *initiated*, not when one succeeds. -/
theorem failed_lookup_narrates_after_stop :
    (run initG (muteLiftedByFailedLookupTrace.take 3)).ttsMuted = true ∧
    (run initG muteLiftedByFailedLookupTrace).isReadingAloud = true ∧
    (run initG muteLiftedByFailedLookupTrace).synthSpeaking = some errorReportText := by
  decide

/-- Two states with the same timer fields satisfy `restartInv`
together. -/
lemma restartInv_of_timersEq {a b : GState} (h1 : a.restartLive = b.restartLive)
    (h2 : a.restartVar = b.restartVar) (h : restartInv b) : restartInv a := by
  rcases h with h | ⟨id, hl, hv⟩
  · exact Or.inl (h1.trans h)
  · exact Or.inr ⟨id, h1.trans hl, h2.trans hv⟩

/-- `scheduleRestart` clears the remembered timer before arming a fresh
one, so it preserves the invariant. -/
lemma restartInv_scheduleRestart (s : GState) (h : restartInv s) :
    restartInv (scheduleRestart s) := by
  rcases h with h | ⟨id, hl, hv⟩
  · refine Or.inr ⟨s.nextId, ?_, rfl⟩
    simp only [scheduleRestart]
    cases hvar : s.restartVar <;> simp [h]
  · refine Or.inr ⟨s.nextId, ?_, rfl⟩
    simp [scheduleRestart, hl, hv]

/-- Erasing a timer preserves the invariant. -/
lemma restartInv_erase (s : GState) (id : Nat) (h : restartInv s) :
    restartInv { s with restartLive := s.restartLive.erase id } := by
  rcases h with h | ⟨a, hl, hv⟩
  · exact Or.inl (by simp [h])
  · by_cases hid : a = id
    · exact Or.inl (by simp [hl, hid])
    · exact Or.inr ⟨a, by simp [hl, List.erase_cons, hid], hv⟩

/-- Projection lemmas: which helpers leave the restart-timer fields
untouched. -/
lemma speakCall_restartLive (t : List Char) (i : Bool) (s : GState) :
    (speakCall t i s).restartLive = s.restartLive := by
  unfold speakCall cancelSynth
  try dsimp only
  repeat' split
  all_goals simp [apply_ite]

/-- See `speakCall_restartLive`. -/
lemma speakCall_restartVar (t : List Char) (i : Bool) (s : GState) :
    (speakCall t i s).restartVar = s.restartVar := by
  unfold speakCall cancelSynth
  try dsimp only
  repeat' split
  all_goals simp [apply_ite]

/-- See `speakCall_restartLive`. -/
lemma speakFire_restartLive (t : List Char) (s : GState) :
    (speakFire t s).restartLive = s.restartLive := by
  unfold speakFire
  try dsimp only
  repeat' split
  all_goals simp [apply_ite]

/-- See `speakCall_restartLive`. -/
lemma speakFire_restartVar (t : List Char) (s : GState) :
    (speakFire t s).restartVar = s.restartVar := by
  unfold speakFire
  try dsimp only
  repeat' split
  all_goals simp [apply_ite]

/-- See `speakCall_restartLive`. -/
lemma readResultsAloud_restartLive (s : GState) :
    (readResultsAloud s).restartLive = s.restartLive := by
  unfold readResultsAloud readPlayerStats
  try dsimp only
  repeat' split
  all_goals simp [apply_ite, speakCall_restartLive]

/-- See `speakCall_restartLive`. -/
lemma readResultsAloud_restartVar (s : GState) :
    (readResultsAloud s).restartVar = s.restartVar := by
  unfold readResultsAloud readPlayerStats
  try dsimp only
  repeat' split
  all_goals simp [apply_ite, speakCall_restartVar]

/-- See `speakCall_restartLive`. -/
lemma dispatch_restartLive (intent : Intent) (s : GState) :
    (dispatch intent s).restartLive = s.restartLive := by
  unfold dispatch readInjuriesAloud readTransfersAloud readAchievementsAloud
    readMarketValueAloud stopReading cancelSynth startSearch loadFavorites
  try dsimp only
  repeat' split
  all_goals simp [apply_ite, speakCall_restartLive, readResultsAloud_restartLive]

/-- See `speakCall_restartLive`. -/
lemma dispatch_restartVar (intent : Intent) (s : GState) :
    (dispatch intent s).restartVar = s.restartVar := by
  unfold dispatch readInjuriesAloud readTransfersAloud readAchievementsAloud
    readMarketValueAloud stopReading cancelSynth startSearch loadFavorites
  try dsimp only
  repeat' split
  all_goals simp [apply_ite, speakCall_restartVar, readResultsAloud_restartVar]

/-- See `speakCall_restartLive`. -/
lemma onResult_restartLive (t : List Char) (remote : Option Intent) (s : GState) :
    (onResult t remote s).restartLive = s.restartLive := by
  unfold onResult stopReading cancelSynth
  try dsimp only
  repeat' split
  all_goals simp [apply_ite, dispatch_restartLive]

/-- See `speakCall_restartLive`. -/
lemma onResult_restartVar (t : List Char) (remote : Option Intent) (s : GState) :
    (onResult t remote s).restartVar = s.restartVar := by
  unfold onResult stopReading cancelSynth
  try dsimp only
  repeat' split
  all_goals simp [apply_ite, dispatch_restartVar]

/-- See `speakCall_restartLive`. -/
lemma toggleVoiceRecording_restartLive (perm stopThrows : Bool) (s : GState) :
    (toggleVoiceRecording perm stopThrows s).restartLive = s.restartLive := by
  unfold toggleVoiceRecording engineStop safeStartRecognition
  try dsimp only
  repeat' split
  all_goals simp [apply_ite]

/-- See `speakCall_restartLive`. -/
lemma toggleVoiceRecording_restartVar (perm stopThrows : Bool) (s : GState) :
    (toggleVoiceRecording perm stopThrows s).restartVar = s.restartVar := by
  unfold toggleVoiceRecording engineStop safeStartRecognition
  try dsimp only
  repeat' split
  all_goals simp [apply_ite]

/-- See `speakCall_restartLive`. -/
lemma safeStartRecognition_restartLive (s : GState) :
    (safeStartRecognition s).1.restartLive = s.restartLive := by
  unfold safeStartRecognition
  try dsimp only
  repeat' split
  all_goals simp [apply_ite]

/-- See `speakCall_restartLive`. -/
lemma safeStartRecognition_restartVar (s : GState) :
    (safeStartRecognition s).1.restartVar = s.restartVar := by
  unfold safeStartRecognition
  try dsimp only
  repeat' split
  all_goals simp [apply_ite]

/-- See `speakCall_restartLive`. -/
lemma readError_restartLive (s : GState) :
    (readError s).restartLive = s.restartLive := by
  unfold readError
  try dsimp only
  repeat' split
  all_goals simp [apply_ite, speakCall_restartLive]

/-- See `speakCall_restartLive`. -/
lemma readError_restartVar (s : GState) :
    (readError s).restartVar = s.restartVar := by
  unfold readError
  try dsimp only
  repeat' split
  all_goals simp [apply_ite, speakCall_restartVar]

/-- One step preserves the restart invariant: the only operations on the
timer fields anywhere in the step function are `scheduleRestart` (clear
then arm) and the firing timer's own removal. -/
lemma restartInv_step (s : GState) (e : Ev) (h : restartInv s) :
    restartInv (step s e) := by
  cases e <;> simp only [step]
  case toggleClick perm st =>
    exact restartInv_of_timersEq (toggleVoiceRecording_restartLive _ _ _)
      (toggleVoiceRecording_restartVar _ _ _) h
  case stopBtnClick => exact restartInv_of_timersEq rfl rfl h
  case recOnStart =>
    split
    · exact restartInv_of_timersEq rfl rfl h
    · exact h
  case recOnEnd =>
    split
    · exact h
    · simp only [recognitionOnEnd]
      split
      · exact restartInv_scheduleRestart _ (restartInv_of_timersEq rfl rfl h)
      · exact restartInv_of_timersEq rfl rfl h
  case recOnError e =>
    split
    · exact h
    · cases e <;> simp only [recognitionOnError]
      case aborted => exact restartInv_of_timersEq rfl rfl h
      case notAllowed =>
        exact restartInv_of_timersEq
          (by simp [speakCall_restartLive]) (by simp [speakCall_restartVar]) h
      case serviceNotAllowed =>
        exact restartInv_of_timersEq
          (by simp [speakCall_restartLive]) (by simp [speakCall_restartVar]) h
      case noSpeech =>
        split
        · exact restartInv_scheduleRestart _ (restartInv_of_timersEq rfl rfl h)
        · exact restartInv_of_timersEq rfl rfl h
      case audioCapture => exact restartInv_of_timersEq rfl rfl h
      case other => exact restartInv_of_timersEq rfl rfl h
  case recResult t remote =>
    split
    · exact restartInv_of_timersEq (onResult_restartLive _ _ _)
        (onResult_restartVar _ _ _) h
    · exact h
  case formSearch name =>
    split <;> exact restartInv_of_timersEq rfl rfl h
  case searchOk secs =>
    split
    · exact restartInv_of_timersEq rfl rfl h
    · exact h
  case searchFail =>
    split
    · exact restartInv_of_timersEq
        (by simp [readError_restartLive]) (by simp [readError_restartVar]) h
    · exact h
  case compareOk =>
    split
    · exact restartInv_of_timersEq rfl rfl h
    · exact h
  case compareFail =>
    split
    · exact restartInv_of_timersEq rfl rfl h
    · exact h
  case clubOk =>
    split
    · exact restartInv_of_timersEq rfl rfl h
    · exact h
  case clubFail =>
    split
    · exact restartInv_of_timersEq rfl rfl h
    · exact h
  case readTimerFire =>
    split
    · split
      · exact restartInv_of_timersEq
          (by simp [readResultsAloud_restartLive]) (by simp [readResultsAloud_restartVar]) h
      · exact restartInv_of_timersEq rfl rfl h
    · exact h
  case compareReadFire c =>
    split
    · split
      · exact restartInv_of_timersEq rfl rfl h
      · split <;>
          exact restartInv_of_timersEq
            (by simp [speakCall_restartLive]) (by simp [speakCall_restartVar]) h
    · exact h
  case clubReadFire hd =>
    split
    · split
      · exact restartInv_of_timersEq rfl rfl h
      · split <;>
          exact restartInv_of_timersEq
            (by simp [speakCall_restartLive]) (by simp [speakCall_restartVar]) h
    · exact h
  case favReadFire ef =>
    split
    · split
      · exact restartInv_of_timersEq rfl rfl h
      · split <;>
          exact restartInv_of_timersEq
            (by simp [speakCall_restartLive]) (by simp [speakCall_restartVar]) h
    · exact h
  case speakFireEv =>
    split
    · exact h
    · exact restartInv_of_timersEq
        (by simp [speakFire_restartLive]) (by simp [speakFire_restartVar]) h
  case synthOnStart =>
    split
    · exact restartInv_of_timersEq rfl rfl h
    · exact h
  case synthOnEnd =>
    split
    · split
      · exact restartInv_scheduleRestart _ (restartInv_of_timersEq rfl rfl h)
      · exact restartInv_of_timersEq rfl rfl h
    · exact h
  case synthOnError na =>
    split
    · split <;> exact restartInv_of_timersEq rfl rfl h
    · exact h
  case restartFire id =>
    split
    · split
      · exact restartInv_of_timersEq
          (by simp [safeStartRecognition_restartLive])
          (by simp [safeStartRecognition_restartVar]) (restartInv_erase s id h)
      · exact restartInv_erase s id h
    · exact h

/-- The invariant holds along every trace. -/
lemma restartInv_run (s : GState) (tr : List Ev) (h : restartInv s) :
    restartInv (run s tr) := by
  induction tr generalizing s with
  | nil => exact h
  | cons e rest ih => exact ih (step s e) (restartInv_step s e h)

/-- C7.  In every state reachable from page load, at most one restart
debounce timer is pending: all three scheduling sites (`onend` of
recognition, the `no-speech` error branch, and the utterance `onend` of
`TTSManager.speak`) first `clearTimeout` the remembered timer and then
overwrite `restartTimeout` with the fresh one, so pending restarts never
accumulate. -/
theorem at_most_one_pending_restart (tr : List Ev) :
    (run initG tr).restartLive.length ≤ 1 := by
  rcases restartInv_run initG tr (Or.inl rfl) with h | ⟨id, hl, _⟩
  · simp [h]
  · simp [hl]

/-!
## Normalization lemmas for the barge-in analysis

`recognition.onresult` checks its inline stop list against
`transcript.toLowerCase()` while the parser checks its stop rule against
`command.toLowerCase().trim()`; since the transcript is already trimmed
(app.js 317), the two strings coincide.  The lemmas below establish
`jsTrim (jsLower (jsTrim t)) = jsLower (jsTrim t)`.
-/

/-- Lower-casing does not change whether a character is whitespace. -/
lemma isWhitespace_lowerChar (c : Char) :
    (lowerChar c).isWhitespace = c.isWhitespace := by
  by_cases hA : c = 'A'
  · subst hA; decide
  by_cases hB : c = 'B'
  · subst hB; decide
  by_cases hC : c = 'C'
  · subst hC; decide
  by_cases hD : c = 'D'
  · subst hD; decide
  by_cases hE : c = 'E'
  · subst hE; decide
  by_cases hF : c = 'F'
  · subst hF; decide
  by_cases hG : c = 'G'
  · subst hG; decide
  by_cases hH : c = 'H'
  · subst hH; decide
  by_cases hI : c = 'I'
  · subst hI; decide
  by_cases hJ : c = 'J'
  · subst hJ; decide
  by_cases hK : c = 'K'
  · subst hK; decide
  by_cases hL : c = 'L'
  · subst hL; decide
  by_cases hM : c = 'M'
  · subst hM; decide
  by_cases hN : c = 'N'
  · subst hN; decide
  by_cases hO : c = 'O'
  · subst hO; decide
  by_cases hP : c = 'P'
  · subst hP; decide
  by_cases hQ : c = 'Q'
  · subst hQ; decide
  by_cases hR : c = 'R'
  · subst hR; decide
  by_cases hS : c = 'S'
  · subst hS; decide
  by_cases hT : c = 'T'
  · subst hT; decide
  by_cases hU : c = 'U'
  · subst hU; decide
  by_cases hV : c = 'V'
  · subst hV; decide
  by_cases hW : c = 'W'
  · subst hW; decide
  by_cases hX : c = 'X'
  · subst hX; decide
  by_cases hY : c = 'Y'
  · subst hY; decide
  by_cases hZ : c = 'Z'
  · subst hZ; decide
  have hself : lowerChar c = c := by
    unfold lowerChar
    rw [if_neg hA, if_neg hB, if_neg hC, if_neg hD, if_neg hE, if_neg hF,
      if_neg hG, if_neg hH, if_neg hI, if_neg hJ, if_neg hK, if_neg hL,
      if_neg hM, if_neg hN, if_neg hO, if_neg hP, if_neg hQ, if_neg hR,
      if_neg hS, if_neg hT, if_neg hU, if_neg hV, if_neg hW, if_neg hX,
      if_neg hY, if_neg hZ]
  rw [hself]

/-- Lower-casing commutes with trimming. -/
lemma jsLower_jsTrim (l : List Char) : jsLower (jsTrim l) = jsTrim (jsLower l) := by
  have hp : (Char.isWhitespace ∘ lowerChar) = Char.isWhitespace :=
    funext isWhitespace_lowerChar
  unfold jsLower jsTrim
  rw [List.dropWhile_map, hp, ← List.map_reverse, List.dropWhile_map, hp,
    ← List.map_reverse]

/-- The head surviving a `dropWhile` fails the predicate. -/
lemma dropWhile_head_false (p : Char → Bool) (l t : List Char) (c : Char)
    (h : l.dropWhile p = c :: t) : p c = false := by
  induction l with
  | nil => simp at h
  | cons a rest ih =>
    rw [List.dropWhile_cons] at h
    split at h
    · exact ih h
    · cases h
      simp_all

/-- A trimmed string has no leading whitespace left. -/
lemma dropWhile_jsTrim (l : List Char) :
    (jsTrim l).dropWhile Char.isWhitespace = jsTrim l := by
  have hpre : jsTrim l <+: l.dropWhile Char.isWhitespace := by
    unfold jsTrim
    have hsuf := List.dropWhile_suffix (l := (l.dropWhile Char.isWhitespace).reverse)
      Char.isWhitespace
    have := List.reverse_prefix.mpr hsuf
    simpa using this
  rcases htr : jsTrim l with _ | ⟨c, rest⟩
  · rfl
  · rw [htr] at hpre
    rcases hpre with ⟨tail, htail⟩
    rcases hu : l.dropWhile Char.isWhitespace with _ | ⟨a, urest⟩
    · rw [hu] at htail; simp at htail
    · rw [hu] at htail
      have hca : c = a := by
        have := htail
        simp at this
        exact this.1
      have ha := dropWhile_head_false Char.isWhitespace l urest a hu
      rw [List.dropWhile_cons, hca, ha]
      simp

/-- Trimming is idempotent. -/
lemma jsTrim_idem (l : List Char) : jsTrim (jsTrim l) = jsTrim l := by
  have hdef : ∀ x : List Char, jsTrim x =
      ((x.dropWhile Char.isWhitespace).reverse.dropWhile Char.isWhitespace).reverse :=
    fun x => rfl
  rw [hdef (jsTrim l), dropWhile_jsTrim, hdef l, List.reverse_reverse,
    List.dropWhile_idempotent]

/-- The parser's normalized utterance coincides with `onresult`'s
`cmdLower` when the input is already trimmed. -/
lemma jsTrim_jsLower_jsTrim (l : List Char) :
    jsTrim (jsLower (jsTrim l)) = jsLower (jsTrim l) := by
  rw [jsLower_jsTrim, jsTrim_idem, ← jsLower_jsTrim]

/-- The inline stop list of `onresult` is a subset of the parser's stop
rule. -/
lemma stopCond_of_inlineStopCond (c : List Char) (h : inlineStopCond c = true) :
    stopCond c = true := by
  simp only [inlineStopCond, Bool.or_eq_true] at h
  simp only [stopCond, Bool.or_eq_true]
  tauto

/-- If the parser assigned any action other than `stop_speaking`, the
stop rule did not match. -/
lemma stopCond_false_of_parse (t : List Char) (i : Intent)
    (h : parseVoiceCommandLocal t = i) (hne : i.action ≠ .stop_speaking) :
    stopCond (jsTrim (jsLower t)) = false := by
  by_contra hc
  rw [Bool.not_eq_false] at hc
  rw [parse_of_stopCond t hc] at h
  exact hne (by rw [← h])

/-- C10.  Barge-in mutes the channel, and the mute suppresses the very
section the user asked for: when a final transcript arrives while
narration is in progress, `onresult` first calls `stopReading` (setting
`ttsMuted`); if that same transcript parses to a section-read intent and
the corresponding data is present, the section handler's
`ttsMuted || !userInteracted` guard returns immediately — the dispatched
command schedules no utterance (`speakPending` unchanged), the synthesis
engine is silent, and the channel ends muted. -/
theorem barge_in_mute_suppresses_section_read
    (s : GState) (t : List Char) (remote : Option Intent) (secs : Sections) (b : Bool)
    (hrec : s.recEngine = .running) (hne : (jsTrim t).isEmpty = false)
    (hread : s.isReadingAloud = true)
    (hres : s.searchResults = some secs)
    (hint : (parseVoiceCommandLocal (jsTrim t) = { action := .read_injuries } ∧ secs.injuries = some b) ∨
      (parseVoiceCommandLocal (jsTrim t) = { action := .read_transfers } ∧ secs.transfers = some b) ∨
      (parseVoiceCommandLocal (jsTrim t) = { action := .read_achievements } ∧ secs.achievements = some b) ∨
      (parseVoiceCommandLocal (jsTrim t) = { action := .read_market_value } ∧ secs.marketValue = some b)) :
    (step s (.recResult t remote)).ttsMuted = true ∧
    (step s (.recResult t remote)).speakPending = s.speakPending ∧
    (step s (.recResult t remote)).synthQueue = [] ∧
    (step s (.recResult t remote)).synthSpeaking = none := by
  have hkey : step s (.recResult t remote) = stopReading { s with userInteracted := true } := by
    have hinline : inlineStopCond (jsLower (jsTrim t)) = false := by
      have hstop : stopCond (jsTrim (jsLower (jsTrim t))) = false := by
        rcases hint with ⟨h, _⟩ | ⟨h, _⟩ | ⟨h, _⟩ | ⟨h, _⟩ <;>
          exact stopCond_false_of_parse (jsTrim t) _ h (by simp)
      rw [jsTrim_jsLower_jsTrim] at hstop
      by_contra hc
      rw [Bool.not_eq_false] at hc
      rw [stopCond_of_inlineStopCond _ hc] at hstop
      cases hstop
    rcases hint with ⟨h, hsec⟩ | ⟨h, hsec⟩ | ⟨h, hsec⟩ | ⟨h, hsec⟩ <;>
      simp [step, hrec, hne, onResult, hread, hinline, stopReading, cancelSynth,
        h, resultIntent, specialActions, dispatch, hres, hsec, readInjuriesAloud,
        readTransfersAloud, readAchievementsAloud, readMarketValueAloud]
  rw [hkey]
  exact ⟨rfl, rfl, rfl, rfl⟩

/-- C10: witness — the transcript `"read injuries"` arriving mid-narration
with injury data present produces no section narration and leaves the
channel muted. -/
theorem barge_in_mute_suppresses_section_read_witness :
    (step bargeInState (.recResult (lc "read injuries") none)).ttsMuted = true ∧
    (step bargeInState (.recResult (lc "read injuries") none)).speakPending =
      bargeInState.speakPending := by
  have h := barge_in_mute_suppresses_section_read bargeInState (lc "read injuries") none
    { injuries := some true, transfers := some true,
      achievements := some true, marketValue := some true } true
    rfl (by decide) rfl rfl (Or.inl ⟨by decide, rfl⟩)
  exact ⟨h.1, h.2.1⟩

/-!
## Mute persistence (amended analysis)

Which events can clear `ttsMuted`, and the fact that a muted channel
stays silent: while `ttsMuted` holds, nothing reaches the synthesis
engine (the delayed start of `TTSManager.speak` re-checks the flag), so
the queue stays empty until something unmutes — a `resume_speaking`
dispatch or the *initiation* of a new lookup.
-/

/-- `speakCall` never writes `ttsMuted`. -/
lemma speakCall_ttsMuted (t : List Char) (i : Bool) (s : GState) :
    (speakCall t i s).ttsMuted = s.ttsMuted := by
  unfold speakCall cancelSynth
  try dsimp only
  repeat' split
  all_goals simp [apply_ite]

/-- `speakFire` never writes `ttsMuted`. -/
lemma speakFire_ttsMuted (t : List Char) (s : GState) :
    (speakFire t s).ttsMuted = s.ttsMuted := by
  unfold speakFire
  try dsimp only
  repeat' split
  all_goals simp [apply_ite]

/-- `scheduleRestart` never writes `ttsMuted`. -/
lemma scheduleRestart_ttsMuted (s : GState) :
    (scheduleRestart s).ttsMuted = s.ttsMuted := by
  unfold scheduleRestart
  try dsimp only
  repeat' split
  all_goals simp [apply_ite]

/-- `safeStartRecognition` never writes `ttsMuted`. -/
lemma safeStartRecognition_ttsMuted (s : GState) :
    (safeStartRecognition s).1.ttsMuted = s.ttsMuted := by
  unfold safeStartRecognition
  try dsimp only
  repeat' split
  all_goals simp [apply_ite]

/-- `toggleVoiceRecording` never writes `ttsMuted`. -/
lemma toggleVoiceRecording_ttsMuted (perm stopThrows : Bool) (s : GState) :
    (toggleVoiceRecording perm stopThrows s).ttsMuted = s.ttsMuted := by
  unfold toggleVoiceRecording engineStop safeStartRecognition
  try dsimp only
  repeat' split
  all_goals simp [apply_ite]

/-- `toggleVoiceRecording` never touches the synthesis engine. -/
lemma toggleVoiceRecording_synthQueue (perm stopThrows : Bool) (s : GState) :
    (toggleVoiceRecording perm stopThrows s).synthQueue = s.synthQueue := by
  unfold toggleVoiceRecording engineStop safeStartRecognition
  try dsimp only
  repeat' split
  all_goals simp [apply_ite]

/-- See `toggleVoiceRecording_synthQueue`. -/
lemma toggleVoiceRecording_synthSpeaking (perm stopThrows : Bool) (s : GState) :
    (toggleVoiceRecording perm stopThrows s).synthSpeaking = s.synthSpeaking := by
  unfold toggleVoiceRecording engineStop safeStartRecognition
  try dsimp only
  repeat' split
  all_goals simp [apply_ite]

/-- `safeStartRecognition` never touches the synthesis engine. -/
lemma safeStartRecognition_synthQueue (s : GState) :
    (safeStartRecognition s).1.synthQueue = s.synthQueue := by
  unfold safeStartRecognition
  try dsimp only
  repeat' split
  all_goals simp [apply_ite]

/-- See `safeStartRecognition_synthQueue`. -/
lemma safeStartRecognition_synthSpeaking (s : GState) :
    (safeStartRecognition s).1.synthSpeaking = s.synthSpeaking := by
  unfold safeStartRecognition
  try dsimp only
  repeat' split
  all_goals simp [apply_ite]

/-- While muted, `dispatch` keeps the channel muted unless the intent is
`resume_speaking` or a player search with a non-blank name. -/
lemma dispatch_ttsMuted (d : Intent) (s : GState) (hm : s.ttsMuted = true)
    (h1 : d.action ≠ .resume_speaking)
    (h2 : ¬(d.action = .search_player ∧ truthyTrim d.playerName = true)) :
    (dispatch d s).ttsMuted = true := by
  rcases d with ⟨a, p1, p2, cn⟩
  cases a <;> simp only [dispatch]
  case stop_speaking => simp [stopReading, cancelSynth]
  case resume_speaking => exact absurd rfl h1
  case read_injuries =>
    repeat' split
    all_goals simp [readInjuriesAloud, speakCall, cancelSynth, hm]
  case read_transfers =>
    repeat' split
    all_goals simp [readTransfersAloud, speakCall, cancelSynth, hm]
  case read_achievements =>
    repeat' split
    all_goals simp [readAchievementsAloud, speakCall, cancelSynth, hm]
  case read_market_value =>
    repeat' split
    all_goals simp [readMarketValueAloud, speakCall, cancelSynth, hm]
  case search_player =>
    split
    · rename_i ht
      exact absurd ⟨rfl, ht⟩ h2
    · exact hm
  case compare_players =>
    split <;> simp [hm]
  case club_achievements =>
    split <;> simp [hm]
  case club_info =>
    split <;> simp [hm]
  case show_favorites =>
    simp [loadFavorites, hm]
  case add_player_favorite => exact hm
  case add_club_favorite => exact hm
  case add_current_player_favorite => exact hm
  case add_current_club_favorite => exact hm
  case remove_player_favorite => exact hm
  case remove_club_favorite => exact hm

/-- While muted and with an idle synthesizer, `speakCall` keeps the
synthesizer idle (it can only append to `speakPending`, whose entries the
delayed start later discards under mute). -/
lemma synthIdle_speakCall (t : List Char) (i : Bool) (s : GState)
    (hq : s.synthQueue = []) (hsp : s.synthSpeaking = none) :
    (speakCall t i s).synthQueue = [] ∧ (speakCall t i s).synthSpeaking = none := by
  unfold speakCall cancelSynth
  try dsimp only
  repeat' split
  all_goals simp_all

/-- `readResultsAloud` keeps an idle synthesizer idle. -/
lemma synthIdle_readResultsAloud (s : GState)
    (hq : s.synthQueue = []) (hsp : s.synthSpeaking = none) :
    (readResultsAloud s).synthQueue = [] ∧ (readResultsAloud s).synthSpeaking = none := by
  unfold readResultsAloud readPlayerStats
  repeat' split
  all_goals
    first
      | exact ⟨hq, hsp⟩
      | exact synthIdle_speakCall _ _ _ (by simpa using hq) (by simpa using hsp)

/-- The four section readers keep an idle synthesizer idle. -/
lemma synthIdle_readInjuriesAloud (b : Bool) (s : GState)
    (hq : s.synthQueue = []) (hsp : s.synthSpeaking = none) :
    (readInjuriesAloud b s).synthQueue = [] ∧ (readInjuriesAloud b s).synthSpeaking = none := by
  unfold readInjuriesAloud
  repeat' split
  all_goals
    first
      | exact ⟨hq, hsp⟩
      | exact synthIdle_speakCall _ _ _ hq hsp

/-- See `synthIdle_readInjuriesAloud`. -/
lemma synthIdle_readTransfersAloud (b : Bool) (s : GState)
    (hq : s.synthQueue = []) (hsp : s.synthSpeaking = none) :
    (readTransfersAloud b s).synthQueue = [] ∧ (readTransfersAloud b s).synthSpeaking = none := by
  unfold readTransfersAloud
  repeat' split
  all_goals
    first
      | exact ⟨hq, hsp⟩
      | exact synthIdle_speakCall _ _ _ hq hsp

/-- See `synthIdle_readInjuriesAloud`. -/
lemma synthIdle_readAchievementsAloud (b : Bool) (s : GState)
    (hq : s.synthQueue = []) (hsp : s.synthSpeaking = none) :
    (readAchievementsAloud b s).synthQueue = [] ∧
    (readAchievementsAloud b s).synthSpeaking = none := by
  unfold readAchievementsAloud
  repeat' split
  all_goals
    first
      | exact ⟨hq, hsp⟩
      | exact synthIdle_speakCall _ _ _ hq hsp

/-- See `synthIdle_readInjuriesAloud`. -/
lemma synthIdle_readMarketValueAloud (b : Bool) (s : GState)
    (hq : s.synthQueue = []) (hsp : s.synthSpeaking = none) :
    (readMarketValueAloud b s).synthQueue = [] ∧
    (readMarketValueAloud b s).synthSpeaking = none := by
  unfold readMarketValueAloud
  repeat' split
  all_goals
    first
      | exact ⟨hq, hsp⟩
      | exact synthIdle_speakCall _ _ _ hq hsp

/-- `dispatch` keeps an idle synthesizer idle: no dispatch branch hands
anything to the engine directly (only the delayed start of
`TTSManager.speak` does, and that is a separate timer event). -/
lemma synthIdle_dispatch (d : Intent) (s : GState)
    (hq : s.synthQueue = []) (hsp : s.synthSpeaking = none) :
    (dispatch d s).synthQueue = [] ∧ (dispatch d s).synthSpeaking = none := by
  rcases d with ⟨a, p1, p2, cn⟩
  cases a <;> simp only [dispatch]
  case stop_speaking => simp [stopReading, cancelSynth]
  case resume_speaking =>
    split
    · exact synthIdle_readResultsAloud _ hq hsp
    · exact ⟨hq, hsp⟩
  case read_injuries =>
    repeat' split
    all_goals
      first
        | exact synthIdle_readInjuriesAloud _ _ hq hsp
        | exact synthIdle_speakCall _ _ _ hq hsp
  case read_transfers =>
    repeat' split
    all_goals
      first
        | exact synthIdle_readTransfersAloud _ _ hq hsp
        | exact synthIdle_speakCall _ _ _ hq hsp
  case read_achievements =>
    repeat' split
    all_goals
      first
        | exact synthIdle_readAchievementsAloud _ _ hq hsp
        | exact synthIdle_speakCall _ _ _ hq hsp
  case read_market_value =>
    repeat' split
    all_goals
      first
        | exact synthIdle_readMarketValueAloud _ _ hq hsp
        | exact synthIdle_speakCall _ _ _ hq hsp
  case search_player =>
    split
    · exact ⟨hq, hsp⟩
    · exact ⟨hq, hsp⟩
  case compare_players =>
    split
    · exact ⟨hq, hsp⟩
    · exact ⟨hq, hsp⟩
  case club_achievements =>
    split
    · exact ⟨hq, hsp⟩
    · exact ⟨hq, hsp⟩
  case club_info =>
    split
    · exact ⟨hq, hsp⟩
    · exact ⟨hq, hsp⟩
  case show_favorites =>
    unfold loadFavorites
    split
    · exact ⟨hq, hsp⟩
    · exact ⟨hq, hsp⟩
  case add_player_favorite => exact ⟨hq, hsp⟩
  case add_club_favorite => exact ⟨hq, hsp⟩
  case add_current_player_favorite => exact ⟨hq, hsp⟩
  case add_current_club_favorite => exact ⟨hq, hsp⟩
  case remove_player_favorite => exact ⟨hq, hsp⟩
  case remove_club_favorite => exact ⟨hq, hsp⟩

/-- C4, amended.  One step of mute persistence and silence: from a muted
state with an idle synthesis engine, every event keeps the engine idle
(the delayed start of `TTSManager.speak` re-checks `ttsMuted`, so nothing
is handed to the engine), and every event that is not an unmute event —
a `resume_speaking` dispatch, or the initiation/landing of a new lookup —
leaves `ttsMuted` set.  The mute is lifted as soon as a lookup is
*initiated* (app.js 762), not when one succeeds, which is why a failing
lookup after `stop_speaking` can narrate its error
(`failed_lookup_narrates_after_stop`). -/
theorem muted_channel_stays_silent (s : GState) (e : Ev)
    (hm : s.ttsMuted = true) (hq : s.synthQueue = []) (hsp : s.synthSpeaking = none) :
    ((step s e).synthQueue = [] ∧ (step s e).synthSpeaking = none) ∧
    (unmuteEvent s e = false → (step s e).ttsMuted = true) := by
  cases e <;> simp only [step, unmuteEvent]
  case toggleClick perm st =>
    refine ⟨⟨?_, ?_⟩, ?_⟩
    · rw [toggleVoiceRecording_synthQueue, hq]
    · rw [toggleVoiceRecording_synthSpeaking, hsp]
    · intro _
      rw [toggleVoiceRecording_ttsMuted, hm]
  case stopBtnClick =>
    simp [stopReading, cancelSynth]
  case recOnStart =>
    constructor
    · split <;> simp_all [recognitionOnStart, apply_ite]
    · intro _
      split <;> simp_all [recognitionOnStart, apply_ite]
  case recOnEnd =>
    constructor
    · split
      · exact ⟨hq, hsp⟩
      · unfold recognitionOnEnd scheduleRestart
        repeat' split
        all_goals simp_all [apply_ite]
    · intro _
      split
      · exact hm
      · unfold recognitionOnEnd scheduleRestart
        repeat' split
        all_goals simp_all [apply_ite]
  case recOnError e =>
    constructor
    · split
      · exact ⟨hq, hsp⟩
      · cases e <;> simp only [recognitionOnError]
        case aborted => simp_all
        case notAllowed =>
          have := synthIdle_speakCall
            (lc "Microphone permission is required. Please allow access in your browser settings and refresh the page.")
            false { s with isRecording := false, isRecognitionStarting := false }
            (by simpa using hq) (by simpa using hsp)
          simp_all
        case serviceNotAllowed =>
          have := synthIdle_speakCall
            (lc "Microphone permission is required. Please allow access in your browser settings and refresh the page.")
            false { s with isRecording := false, isRecognitionStarting := false }
            (by simpa using hq) (by simpa using hsp)
          simp_all
        case noSpeech =>
          unfold scheduleRestart
          repeat' split
          all_goals simp_all [apply_ite]
        case audioCapture => simp_all
        case other => simp_all
    · intro _
      split
      · exact hm
      · cases e <;> simp only [recognitionOnError]
        case aborted => simp_all
        case notAllowed => simp [speakCall_ttsMuted, hm]
        case serviceNotAllowed => simp [speakCall_ttsMuted, hm]
        case noSpeech =>
          repeat' split
          all_goals simp_all [scheduleRestart_ttsMuted, scheduleRestart, apply_ite]
        case audioCapture => simp_all
        case other => simp_all
  case recResult t remote =>
    constructor
    · split
      · unfold onResult
        dsimp only
        have hq1 : ({ s with userInteracted := true } : GState).synthQueue = [] := hq
        have hsp1 : ({ s with userInteracted := true } : GState).synthSpeaking = none := hsp
        repeat' split
        all_goals
          first
            | (simp [stopReading, cancelSynth]; done)
            | (exact synthIdle_dispatch _ _ (by simp_all [stopReading, cancelSynth])
                (by simp_all [stopReading, cancelSynth]))
      · exact ⟨hq, hsp⟩
    · intro hu
      split
      · rename_i hg
        simp only [Bool.and_eq_true, decide_eq_true_eq] at hg
        unfold onResult
        dsimp only
        split
        · simp [stopReading]
        · rename_i hinline
          have hi : inlineStopCond (jsLower (jsTrim t)) = false := by
            simpa using hinline
          rw [hg.1, hg.2, hi] at hu
          have hu2 : ((resultIntent t remote).action == VAction.resume_speaking ||
              ((resultIntent t remote).action == VAction.search_player &&
                truthyTrim (resultIntent t remote).playerName)) = false := by
            simpa using hu
          apply dispatch_ttsMuted
          · split <;> simp [stopReading, hm]
          · intro hr
            rw [hr] at hu2
            simp at hu2
          · intro hcon
            rw [hcon.1] at hu2
            simp [hcon.2] at hu2
      · exact hm
  case formSearch name =>
    constructor
    · split <;> simp_all [startSearch]
    · intro hu
      split
      · rename_i hg
        simp at hu
        rw [hu] at hg
        simp at hg
      · exact hm
  case searchOk secs =>
    constructor
    · split <;> simp_all
    · intro hu
      split
      · rename_i hg
        rw [hu] at hg
        cases hg
      · exact hm
  case searchFail =>
    constructor
    · split
      · simp only [readError]
        split
        · exact ⟨hq, hsp⟩
        · rename_i hc
          exact absurd hm hc
      · exact ⟨hq, hsp⟩
    · intro _
      split
      · simp only [readError]
        split
        · exact hm
        · rename_i hc
          exact absurd hm hc
      · exact hm
  case compareOk =>
    constructor
    · split <;> simp_all
    · intro hu
      split
      · rename_i hg
        rw [hu] at hg
        cases hg
      · exact hm
  case compareFail =>
    constructor
    · split <;> simp_all
    · intro _
      split <;> simp_all
  case clubOk =>
    constructor
    · split <;> simp_all
    · intro hu
      split
      · rename_i hg
        rw [hu] at hg
        cases hg
      · exact hm
  case clubFail =>
    constructor
    · split <;> simp_all
    · intro _
      split <;> simp_all
  case readTimerFire =>
    constructor
    · split
      · split
        · simp_all
        · simp_all
      · exact ⟨hq, hsp⟩
    · intro _
      split
      · split
        · simp_all
        · simp_all
      · exact hm
  case compareReadFire c =>
    constructor
    · split
      · split
        · simp_all
        · split <;>
            exact synthIdle_speakCall _ _ _ (by simpa using hq) (by simpa using hsp)
      · exact ⟨hq, hsp⟩
    · intro _
      split
      · split
        · simp_all
        · split <;> simp_all [speakCall_ttsMuted]
      · exact hm
  case clubReadFire hd =>
    constructor
    · split
      · split
        · simp_all
        · split <;>
            exact synthIdle_speakCall _ _ _ (by simpa using hq) (by simpa using hsp)
      · exact ⟨hq, hsp⟩
    · intro _
      split
      · split
        · simp_all
        · split <;> simp_all [speakCall_ttsMuted]
      · exact hm
  case favReadFire ef =>
    constructor
    · split
      · split
        · simp_all
        · split <;>
            exact synthIdle_speakCall _ _ _ (by simpa using hq) (by simpa using hsp)
      · exact ⟨hq, hsp⟩
    · intro _
      split
      · split
        · simp_all
        · split <;> simp_all [speakCall_ttsMuted]
      · exact hm
  case speakFireEv =>
    constructor
    · split
      · exact ⟨hq, hsp⟩
      · simp_all [speakFire]
    · intro _
      split
      · exact hm
      · simp_all [speakFire_ttsMuted]
  case synthOnStart =>
    constructor
    · split
      · simp_all
      · exact ⟨hq, hsp⟩
    · intro _
      split
      · simp_all
      · exact hm
  case synthOnEnd =>
    constructor
    · split
      · repeat' split
        all_goals simp_all [scheduleRestart, apply_ite]
      · exact ⟨hq, hsp⟩
    · intro _
      split
      · repeat' split
        all_goals simp_all [scheduleRestart_ttsMuted, scheduleRestart, apply_ite]
      · exact hm
  case synthOnError na =>
    constructor
    · split
      · split <;> simp_all
      · exact ⟨hq, hsp⟩
    · intro _
      split
      · split <;> simp_all
      · exact hm
  case restartFire id =>
    constructor
    · split
      · split
        · constructor
          · rw [safeStartRecognition_synthQueue]
            exact hq
          · rw [safeStartRecognition_synthSpeaking]
            exact hsp
        · exact ⟨hq, hsp⟩
      · exact ⟨hq, hsp⟩
    · intro _
      split
      · split
        · rw [safeStartRecognition_ttsMuted]
          exact hm
        · exact hm
      · exact hm

/-- C4, amended: witness.  From the muted state, a voice command asking
for a section keeps the synthesizer idle and the channel muted. -/
theorem muted_channel_stays_silent_witness :
    (step mutedState (.recResult (lc "read the injuries") none)).synthQueue = [] ∧
    (step mutedState (.recResult (lc "read the injuries") none)).ttsMuted = true := by
  have h := muted_channel_stays_silent mutedState
    (.recResult (lc "read the injuries") none) rfl rfl rfl
  exact ⟨h.1.1, h.2 (by decide)⟩
